import Mathlib

/-!
Shallow embedding of the Battleship game-state + AI engine of the
repository (models/GameConfig.js with the Ship class, models/GameState.js,
models/GameAI.js of the seabattle-refactored project).

Modelling decisions, all forced by JavaScript semantics of the source:

* A board coordinate in the source is a plain object `{row, col}`.  The
  source stores such objects in `Set`s (`Ship#locations`, `Ship#hits`) and
  queries them with `Set.prototype.has`, which compares objects by
  *reference identity* (SameValueZero), never by field values.  The
  embedding therefore gives every coordinate object an allocation identity
  `oid : Nat`: two objects with the same `row`/`col` but different `oid`
  model two distinct allocations, exactly like two separately constructed
  `{row, col}` literals in the program.  `objSetHas`/`objSetAdd` model
  `Set.has`/`Set.add` on objects (membership by `oid`).

* The per-side guess sets (`GameState#playerGuesses`, `#cpuGuesses`) hold
  *strings* `"row,col"` built by `#getGuessKey`, so their membership is by
  value.  For integer rows/columns the string key is in bijection with the
  pair `(row, col)`, so the embedding uses `GuessKey := Int × Int` with
  value equality (`keySetHas`/`keySetAdd`).

* JS numbers are modelled as `Int`: every coordinate the program ever
  builds is an integer (parsed digits, or an integer ±1), and the claims
  are about integer coordinates.  The `typeof guess.row !== 'number'`
  checks of the source collapse to the `none` case of an `Option` guess
  (`null`/`undefined` input).

* Exceptions are modelled with `Except GameError`.  Functions that may
  throw *after* having mutated state return the state reached at the
  throw site together with the error, since JS does not roll back.

* `Math.random()` driven choices take the chosen index as an explicit
  `Nat` argument (reduced mod the list length, so that every program
  behaviour corresponds to some argument and conversely); freshly
  allocated coordinate objects take their `oid`s from an explicit base
  argument.
-/

namespace SeaBattle

/-- A JS coordinate object `{row, col}` with its allocation identity.
`oid` models the object reference: `Set` membership on objects in the
source compares references, never the `row`/`col` values. -/
structure CoordObj where
  oid : Nat
  row : Int
  col : Int
deriving DecidableEq

/-- `Set.prototype.has` on a set of coordinate objects (reference identity). -/
def objSetHas (s : List CoordObj) (x : CoordObj) : Bool :=
  s.any (fun y => y.oid == x.oid)

/-- `Set.prototype.add` on a set of coordinate objects (reference identity):
adding an object already in the set is a no-op. -/
def objSetAdd (s : List CoordObj) (x : CoordObj) : List CoordObj :=
  if objSetHas s x then s else s ++ [x]

/-- A guess key: the string `"row,col"` built by `GameState##getGuessKey`,
represented by the pair it encodes (the encoding is injective on `Int`). -/
abbrev GuessKey := Int × Int

/-- `Set.prototype.has` on the string guess sets (value equality). -/
def keySetHas (s : List GuessKey) (k : GuessKey) : Bool :=
  decide (k ∈ s)

/-- `Set.prototype.add` on the string guess sets. -/
def keySetAdd (s : List GuessKey) (k : GuessKey) : List GuessKey :=
  if keySetHas s k then s else s ++ [k]

/-- `GameConfig.BOARD_SIZE`. -/
def BOARD_SIZE : Int := 10

/-- `GameConfig.SHIPS`: one entry `{type: 'battleship', size: 3, count: 3}`,
modelled as the pair (size, count). -/
def SHIPS : List (Int × Nat) := [(3, 3)]

/-- `GameConfig.MAX_PLACEMENT_ATTEMPTS`. -/
def MAX_PLACEMENT_ATTEMPTS : Nat := 100

/-- The distinct error messages thrown by the engine, one constructor per
message (`GameConfig.ERROR_MESSAGES` plus the literals in Ship.js and
GameState.js). -/
inductive GameError where
  | invalidShipSize        -- 'Недопустимый размер корабля' (Ship constructor)
  | invalidCoordinates     -- ERROR_MESSAGES.INVALID_COORDINATES
  | notPartOfShip          -- 'Попадание не по кораблю' (Ship.hit)
  | alreadySunk            -- 'Корабль уже потоплен' (Ship.hit)
  | invalidShipPlacement   -- ERROR_MESSAGES.INVALID_SHIP_PLACEMENT
  | gameNotInit            -- ERROR_MESSAGES.GAME_NOT_INITIALIZED
  | gameOver               -- ERROR_MESSAGES.GAME_OVER
  | alreadyGuessed         -- 'Эта клетка уже проверена' (processPlayerGuess)
  | alreadyInit            -- 'Игра уже инициализирована'
  | placementFailed        -- 'Не удалось разместить корабли'
deriving DecidableEq

/-- `Ship##isValidLocation` (Ship.js): bounds check by value.  The
`location && typeof ... === 'number'` part is the non-`none` case of the
caller's `Option`. -/
def isValidLocation (l : CoordObj) : Bool :=
  0 ≤ l.row && l.row < BOARD_SIZE && 0 ≤ l.col && l.col < BOARD_SIZE

/-- The `Ship` class (Ship.js): `#size`, `#locations : Set`, `#hits : Set`,
both sets of coordinate *objects* (reference identity). -/
structure Ship where
  size : Int
  locations : List CoordObj
  hits : List CoordObj
deriving DecidableEq

/-- `new Ship(size)`: throws for a size outside 1..4. -/
def Ship.make (size : Int) : Except GameError Ship :=
  if size < 1 || size > 4 then .error .invalidShipSize
  else .ok { size := size, locations := [], hits := [] }

/-- `Ship.isAtLocation(location)`: `this.#locations.has(location)` —
reference-identity membership. -/
def Ship.isAtLocation (s : Ship) (l : CoordObj) : Bool :=
  objSetHas s.locations l

/-- `Ship.isHit(location)`: `this.#hits.has(location)`. -/
def Ship.isHitAt (s : Ship) (l : CoordObj) : Bool :=
  objSetHas s.hits l

/-- `Ship.isSunk()`: `this.#hits.size === this.#size`. -/
def Ship.isSunk (s : Ship) : Bool :=
  (s.hits.length : Int) == s.size

/-- `Ship.addLocation(location)`: bounds check, then `#locations.add`. -/
def Ship.addLocation (s : Ship) (l : CoordObj) : Except GameError Ship :=
  if !isValidLocation l then .error .invalidCoordinates
  else .ok { s with locations := objSetAdd s.locations l }

/-- `Ship.hit(location)`: bounds check, `isAtLocation` check, `isSunk`
check, then `#hits.add(location)`. -/
def Ship.hit (s : Ship) (l : CoordObj) : Except GameError Ship :=
  if !isValidLocation l then .error .invalidCoordinates
  else if !s.isAtLocation l then .error .notPartOfShip
  else if s.isSunk then .error .alreadySunk
  else .ok { s with hits := objSetAdd s.hits l }

/-- The mutable fields of the `GameState` class (GameState.js).  `inited`
models `#initialized`.  The `#gameAI` member is carried separately (see
`AIState`), as the AI only queries the game state. -/
structure GameState where
  inited : Bool
  playerShips : List Ship
  cpuShips : List Ship
  playerGuesses : List GuessKey
  cpuGuesses : List GuessKey
deriving DecidableEq

/-- `new GameState()`. -/
def GameState.new : GameState :=
  { inited := false, playerShips := [], cpuShips := [],
    playerGuesses := [], cpuGuesses := [] }

/-- `GameState.getPlayerShips()` returns `[...this.#playerShips]`; at the
value level that is the fleet list itself (see the reference-level model
further down for the aliasing of its elements). -/
def GameState.getPlayerShips (gs : GameState) : List Ship :=
  gs.playerShips

/-- `GameState.getCPUShips()` returns `[...this.#cpuShips]`. -/
def GameState.getCPUShips (gs : GameState) : List Ship :=
  gs.cpuShips

/-- `GameState##getGuessKey`. -/
def getGuessKey (g : CoordObj) : GuessKey :=
  (g.row, g.col)

/-- `GameState.isCellGuessed(guess)`: the source checks the *player*
guess-set `#playerGuesses` only (there is no per-side parameter). -/
def GameState.isCellGuessed (gs : GameState) (g : CoordObj) : Bool :=
  keySetHas gs.playerGuesses (getGuessKey g)

/-- Index search behind `findShipIdx`. -/
def findShipIdxAux (l : CoordObj) (i : Nat) : List Ship → Option Nat
  | [] => none
  | sh :: rest =>
    if sh.isAtLocation l then some i else findShipIdxAux l (i + 1) rest

/-- `GameState##findShipAtLocation` is `ships.find(ship =>
ship.isAtLocation(location))`; the embedding returns the index of the
first match so that the in-place mutation of the found ship can be
expressed. -/
def findShipIdx (ships : List Ship) (l : CoordObj) : Option Nat :=
  findShipIdxAux l 0 ships

/-- `GameState##areAllShipsSunk`. -/
def areAllShipsSunk (ships : List Ship) : Bool :=
  ships.all Ship.isSunk

/-- `GameState.isGameOver()`. -/
def GameState.isGameOver (gs : GameState) : Bool :=
  if !gs.inited then false
  else areAllShipsSunk gs.playerShips || areAllShipsSunk gs.cpuShips

/-- `GameState##validateGameState`: the error it would throw, if any
(`NotInitialized` before `GameOver`). -/
def validateGameState (gs : GameState) : Option GameError :=
  if !gs.inited then some .gameNotInit
  else if gs.isGameOver then some .gameOver
  else none

/-- `GameState##validateGuess`: `none` models a `null`/`undefined`/
non-numeric guess; then the bounds check. -/
def validateGuess (g : Option CoordObj) : Option GameError :=
  match g with
  | none => some .invalidCoordinates
  | some c =>
    if c.row < 0 || c.row ≥ BOARD_SIZE || c.col < 0 || c.col ≥ BOARD_SIZE then
      some .invalidCoordinates
    else none

/-- The `'hit'` / `'miss'` result type strings. -/
inductive GuessType where
  | hit
  | miss
deriving DecidableEq

/-- The `{type, coordinates}` result object of `process*Guess`. -/
structure GuessResult where
  type : GuessType
  coordinates : CoordObj
deriving DecidableEq

/-- `GameState.processPlayerGuess(guess)`.  Returns the thrown error or
the result, together with the state at exit (JS does not roll back
mutations made before a throw). -/
def GameState.processPlayerGuess (gs : GameState) (g : Option CoordObj) :
    Except GameError GuessResult × GameState :=
  match validateGameState gs with
  | some e => (.error e, gs)
  | none =>
  match validateGuess g with
  | some e => (.error e, gs)
  | none =>
  match g with
  | none => (.error .invalidCoordinates, gs)  -- dead: validateGuess rejected none
  | some c =>
    let key := getGuessKey c
    if keySetHas gs.playerGuesses key then (.error .alreadyGuessed, gs)
    else
      let gs1 := { gs with playerGuesses := keySetAdd gs.playerGuesses key }
      match findShipIdx gs1.cpuShips c with
      | some i =>
        match gs1.cpuShips[i]? with
        | some sh =>
          match sh.hit c with
          | .error e => (.error e, gs1)
          | .ok sh1 =>
            (.ok { type := .hit, coordinates := c },
             { gs1 with cpuShips := gs1.cpuShips.set i sh1 })
        | none => (.ok { type := .miss, coordinates := c }, gs1)  -- dead
      | none => (.ok { type := .miss, coordinates := c }, gs1)

/-- The four direction strings of GameAI.js. -/
inductive Dir where
  | up
  | right
  | down
  | left
deriving DecidableEq

/-- Fixed order used by the literal `['up', 'right', 'down', 'left']`. -/
def allDirections : List Dir := [.up, .right, .down, .left]

/-- A fixed offset per direction, used only to hand distinct fresh `oid`s
to the object allocated for each direction probed in one call. -/
def dirIdx : Dir → Nat
  | .up => 0
  | .right => 1
  | .down => 2
  | .left => 3

/-- The result strings fed to `GameAI.updateState`; the source only ever
compares the argument with `'hit'`, so `'sunk'` (named by the spec) and
`'miss'` take the same branch. -/
inductive ResultMsg where
  | hit
  | miss
  | sunk
deriving DecidableEq

/-- The mutable fields of the `GameAI` class (GameAI.js).  The
`#gameState` member is the game state passed explicitly to each
function. -/
structure AIState where
  lastHit : Option CoordObj
  possibleDirections : List Dir
  currentDirection : Option Dir
  possibleShipSizes : List Int
deriving DecidableEq

/-- `new GameAI(gameState)`. -/
def AIState.fresh : AIState :=
  { lastHit := none, possibleDirections := allDirections,
    currentDirection := none, possibleShipSizes := [4, 3, 2, 1] }

/-- `GameAI##switchDirection`: the source first sets
`this.#currentDirection = null` and only then filters
`#possibleDirections` by `dir !== this.#currentDirection`; the filter
compares each direction string against the freshly written `null`, so it
keeps every element.  The embedding reproduces that order. -/
def AIState.switchDirection (ai : AIState) : AIState :=
  let ai1 := { ai with currentDirection := none }
  { ai1 with possibleDirections :=
      ai1.possibleDirections.filter (fun d => !(ai1.currentDirection == some d)) }

/-- `GameAI##resetDirections`. -/
def AIState.resetDirections (ai : AIState) : AIState :=
  { ai with possibleDirections := allDirections, currentDirection := none }

/-- `GameAI##resetHunt`. -/
def AIState.resetHunt (ai : AIState) : AIState :=
  AIState.resetDirections { ai with lastHit := none }

/-- `Set.prototype.delete` on the numeric set `#possibleShipSizes`. -/
def numSetDelete (s : List Int) (x : Int) : List Int :=
  s.filter (fun y => !(y == x))

/-- `GameAI##updatePossibleShipSizes`: note the source inspects
`gameState.getCPUShips()` — the CPU's *own* fleet — for sunk ships. -/
def AIState.updatePossibleShipSizes (ai : AIState) (gs : GameState) : AIState :=
  let sunkShips := (gs.getCPUShips).filter Ship.isSunk
  { ai with possibleShipSizes :=
      sunkShips.foldl (fun szs sh => numSetDelete szs sh.size) ai.possibleShipSizes }

/-- `GameAI.updateState(guess, result)`. -/
def AIState.updateState (ai : AIState) (gs : GameState) (guess : CoordObj)
    (result : ResultMsg) : AIState :=
  if result == .hit then
    let ai1 := { ai with lastHit := some guess }
    let ai2 := ai1.updatePossibleShipSizes gs
    if ai2.currentDirection == none then ai2.resetDirections else ai2
  else if !(ai.currentDirection == none) then ai.switchDirection
  else ai

/-- The 100 board cells in the row-major order of the two nested loops of
`GameAI##getAvailableCells`. -/
def allBoardCells : List (Int × Int) :=
  (List.range 10).flatMap (fun r => (List.range 10).map (fun c => ((r : Int), (c : Int))))

/-- `GameAI##getAvailableCells`: builds a fresh `{row, col}` object per
cell (distinct `oid`s from the base `oid0`) and keeps those for which
`gameState.isCellGuessed` is false — i.e. cells absent from the *player*
guess-set. -/
def getAvailableCells (gs : GameState) (oid0 : Nat) : List CoordObj :=
  (allBoardCells.map (fun rc => CoordObj.mk (oid0 + (rc.1 * 10 + rc.2).toNat) rc.1 rc.2)).filter
    (fun g => !gs.isCellGuessed g)

/-- `GameAI##getRandomGuess`: `availableCells[Math.floor(Math.random() *
availableCells.length)]`.  The random draw is the index `r % length`
(every index can occur); on an empty list the JS expression is
`undefined`, modelled by `none`. -/
def getRandomGuess (gs : GameState) (r : Nat) (oid0 : Nat) : Option CoordObj :=
  let availableCells := getAvailableCells gs oid0
  availableCells[r % availableCells.length]?

/-- `GameAI##getGuessInDirection` for a non-null `#lastHit` (the `default:
return null` arm is unreachable for the four direction strings). -/
def getGuessInDirection (lastHit : CoordObj) (d : Dir) (oid : Nat) : CoordObj :=
  match d with
  | .up => ⟨oid, lastHit.row - 1, lastHit.col⟩
  | .right => ⟨oid, lastHit.row, lastHit.col + 1⟩
  | .down => ⟨oid, lastHit.row + 1, lastHit.col⟩
  | .left => ⟨oid, lastHit.row, lastHit.col - 1⟩

/-- `GameAI##isValidGuess`: bounds check plus
`!this.#gameState.isCellGuessed(guess)` (again the *player* guess-set). -/
def isValidGuess (gs : GameState) (g : Option CoordObj) : Bool :=
  match g with
  | none => false
  | some c =>
    0 ≤ c.row && c.row < BOARD_SIZE && 0 ≤ c.col && c.col < BOARD_SIZE &&
      !gs.isCellGuessed c

/-- The `for (const direction of this.#possibleDirections)` loop of
`GameAI##getHuntGuess`: first direction whose adjacent cell passes
`isValidGuess` wins. -/
def tryDirections (gs : GameState) (lastHit : CoordObj) (oid0 : Nat) :
    List Dir → Option (CoordObj × Dir)
  | [] => none
  | d :: rest =>
    let g := getGuessInDirection lastHit d (oid0 + 1 + dirIdx d)
    if isValidGuess gs (some g) then some (g, d)
    else tryDirections gs lastHit oid0 rest

/-- The tail of `GameAI##getHuntGuess` after the current-direction probe:
the direction loop, then `#resetHunt` + `#getRandomGuess` fallback. -/
def huntLoopFallback (ai : AIState) (gs : GameState) (lastHit : CoordObj)
    (r : Nat) (oid0 : Nat) : Option CoordObj × AIState :=
  match tryDirections gs lastHit oid0 ai.possibleDirections with
  | some (g, d) => (some g, { ai with currentDirection := some d })
  | none =>
    let ai1 := ai.resetHunt
    (getRandomGuess gs r (oid0 + 10), ai1)

/-- `GameAI##getHuntGuess`. -/
def getHuntGuess (ai : AIState) (gs : GameState) (r : Nat) (oid0 : Nat) :
    Option CoordObj × AIState :=
  match ai.lastHit with
  | none => (getRandomGuess gs r (oid0 + 10), ai)
  | some lastHit =>
    match ai.currentDirection with
    | some d =>
      let nextGuess := getGuessInDirection lastHit d oid0
      if isValidGuess gs (some nextGuess) then (some nextGuess, ai)
      else huntLoopFallback ai.switchDirection gs lastHit r oid0
    | none => huntLoopFallback ai gs lastHit r oid0

/-- `GameAI.makeGuess()`: hunt mode when `#lastHit` is set, otherwise a
random guess.  Returns the guess (`none` = `undefined`) and the AI state
as mutated by the call. -/
def makeGuess (ai : AIState) (gs : GameState) (r : Nat) (oid0 : Nat) :
    Option CoordObj × AIState :=
  match ai.lastHit with
  | some _ => getHuntGuess ai gs r oid0
  | none => (getRandomGuess gs r (oid0 + 10), ai)

/-- Outcome of `GameState.processCPUGuess()`.  `fuelOut` reports that the
defensive retry recursion (`return this.processCPUGuess()`) was still
running when the given fuel ran out; `crash` models the TypeError of
dereferencing an `undefined` guess. -/
inductive CPUOutcome where
  | done (res : GuessResult) (gs : GameState) (ai : AIState)
  | err (e : GameError)
  | crash
  | fuelOut
deriving DecidableEq

/-- `GameState.processCPUGuess()`, with the random indices and fresh-`oid`
bases of the successive retries supplied by the streams `rnd` and `oids`
(position `step` onwards). -/
def processCPUGuess (gs : GameState) (ai : AIState) (rnd : Nat → Nat)
    (oids : Nat → Nat) (step : Nat) : Nat → CPUOutcome
  | 0 => .fuelOut
  | fuel + 1 =>
    match validateGameState gs with
    | some e => .err e
    | none =>
      match makeGuess ai gs (rnd step) (oids step) with
      | (none, _) => .crash
      | (some g, ai1) =>
        let key := getGuessKey g
        if keySetHas gs.cpuGuesses key then
          processCPUGuess gs ai1 rnd oids (step + 1) fuel
        else
          let gs1 := { gs with cpuGuesses := keySetAdd gs.cpuGuesses key }
          match findShipIdx gs1.playerShips g with
          | some i =>
            match gs1.playerShips[i]? with
            | some sh =>
              match sh.hit g with
              | .error e => .err e
              | .ok sh1 =>
                let gs2 := { gs1 with playerShips := gs1.playerShips.set i sh1 }
                let ai2 := ai1.updateState gs2 g .hit
                .done { type := .hit, coordinates := g } gs2 ai2
            | none => -- dead: findIdx? returned a valid index
              let ai2 := ai1.updateState gs1 g .miss
              .done { type := .miss, coordinates := g } gs1 ai2
          | none =>
            let ai2 := ai1.updateState gs1 g .miss
            .done { type := .miss, coordinates := g } gs1 ai2

/-- `GameState##getShipLocations`: the `size` contiguous cells stepping
from the anchor in the given direction; each `locations.push({row, col})`
allocates a fresh object, so the cells get consecutive fresh `oid`s. -/
def getShipLocationsAux (row col : Int) (d : Dir) (oid : Nat) : Nat → List CoordObj
  | 0 => []
  | n + 1 =>
    CoordObj.mk oid row col ::
      (match d with
       | .up => getShipLocationsAux (row - 1) col d (oid + 1) n
       | .right => getShipLocationsAux row (col + 1) d (oid + 1) n
       | .down => getShipLocationsAux (row + 1) col d (oid + 1) n
       | .left => getShipLocationsAux row (col - 1) d (oid + 1) n)

/-- `GameState##areLocationsValid`: every cell in bounds, by value. -/
def areLocationsValid (ls : List CoordObj) : Bool :=
  ls.all isValidLocation

/-- `GameState##doLocationsOverlap`: `ships.some(ship => locations.some(loc
=> ship.isAtLocation(loc)))` — `isAtLocation` is reference-identity
membership, and the candidate cells are freshly allocated objects. -/
def doLocationsOverlap (ls : List CoordObj) (ships : List Ship) : Bool :=
  ships.any (fun sh => ls.any (fun l => sh.isAtLocation l))

/-- `locations.forEach(loc => ship.addLocation(loc))`: a throw inside the
callback propagates at once, which `foldlM` over `Except` reproduces. -/
def addLocationsToShip (sh : Ship) (ls : List CoordObj) : Except GameError Ship :=
  ls.foldlM Ship.addLocation sh

/-- One body of the placement `while` loop: `new Ship(size)` then
`GameState##placeShip(ship, location, direction, ships)` with the drawn
anchor and direction. -/
def placeShipAttempt (size : Int) (ships : List Ship) (anchor : Int × Int)
    (d : Dir) (oid0 : Nat) : Except GameError Ship :=
  match Ship.make size with
  | .error e => .error e
  | .ok sh =>
    let ls := getShipLocationsAux anchor.1 anchor.2 d oid0 size.toNat
    if !areLocationsValid ls then .error .invalidShipPlacement
    else if doLocationsOverlap ls ships then .error .invalidShipPlacement
    else addLocationsToShip sh ls

/-- The `while (!placed && attempts < max)` loop placing one ship: each
iteration consumes one random (anchor, direction) draw from the supplied
list; failure of every attempt (or exhaustion of the drawn list) throws
`'Не удалось разместить корабли'`.  Returns the placed ship and the next
fresh `oid`. -/
def placeOneShip (size : Int) (ships : List Ship) (oid0 : Nat) :
    List ((Int × Int) × Dir) → Nat → Except GameError (Ship × Nat)
  | _, 0 => .error .placementFailed
  | [], _ + 1 => .error .placementFailed
  | (anchor, d) :: rest, remaining + 1 =>
    match placeShipAttempt size ships anchor d oid0 with
    | .ok sh => .ok (sh, oid0 + size.toNat)
    | .error _ => placeOneShip size ships (oid0 + size.toNat) rest remaining

/-- The ship sizes demanded by the manifest, in placement order (the two
nested `for` loops over `GameConfig.SHIPS`). -/
def manifestSizes : List Int :=
  SHIPS.flatMap (fun sc => List.replicate sc.2 sc.1)

/-- `GameState##placeShipsForPlayer` / `##placeShipsForCPU` body: place
each manifest ship in turn against the fleet built so far (`ships` is
pushed after each successful `#placeShip`), one attempt-draw list per
ship. -/
def placeShipsList (oid0 : Nat) (ships : List Ship) :
    List Int → List (List ((Int × Int) × Dir)) → Except GameError (List Ship × Nat)
  | [], _ => .ok (ships, oid0)
  | _ :: _, [] => .error .placementFailed
  | size :: rest, draws :: drawsRest =>
    match placeOneShip size ships oid0 draws MAX_PLACEMENT_ATTEMPTS with
    | .error e => .error e
    | .ok (sh, oid1) => placeShipsList oid1 (ships ++ [sh]) rest drawsRest

/-- `GameState.initialize()`: re-initialisation check, the two independent
placement passes, then `#gameAI = new GameAI(this)` and the flag.  The
random anchor/direction draws for the two passes are supplied
explicitly. -/
def initGame (gs : GameState) (playerDraws cpuDraws : List (List ((Int × Int) × Dir)))
    (oid0 : Nat) : Except GameError (GameState × AIState) :=
  if gs.inited then .error .alreadyInit
  else
    match placeShipsList oid0 gs.playerShips manifestSizes playerDraws with
    | .error e => .error e
    | .ok (pShips, oid1) =>
      match placeShipsList oid1 gs.cpuShips manifestSizes cpuDraws with
      | .error e => .error e
      | .ok (cShips, _) =>
        .ok ({ gs with inited := true, playerShips := pShips, cpuShips := cShips },
             AIState.fresh)

/-- Value equality of two coordinate objects — the "structural equality"
the spec's coordinate model demands for occupancy and set membership. -/
def sameCell (a b : CoordObj) : Bool :=
  a.row == b.row && a.col == b.col

/-!
Reference-level model of `getPlayerShips()` / `getCPUShips()`.

The getters return `[...this.#playerShips]`: a *new array* whose elements
are the very `Ship` objects of the internal fleet.  To talk about
aliasing, `Ship` objects are placed in an explicit store (`shipStore`,
index = object reference) and the fleets hold references into it; an
external caller who got the references from a getter and mutates the ship
behind one (e.g. `ship.hit(...)` — with a location object obtained from
`ship.getLocations()`, which also returns the internal objects) updates
the store the game itself reads.
-/

/-- The store of all allocated `Ship` objects: index = object reference. -/
structure GameHeap where
  shipStore : List Ship
deriving DecidableEq

/-- The fleet fields of `GameState`, at reference level. -/
structure GameStateRef where
  playerShipRefs : List Nat
  cpuShipRefs : List Nat
deriving DecidableEq

/-- `getPlayerShips()` at reference level: the spread copies the array but
keeps the same `Ship` references as elements. -/
def getPlayerShipsRef (g : GameStateRef) : List Nat :=
  g.playerShipRefs

/-- `getCPUShips()` at reference level. -/
def getCPUShipsRef (g : GameStateRef) : List Nat :=
  g.cpuShipRefs

/-- `ship.hit(c)` performed by an external caller through the reference
`r` it extracted from a getter's array: the `Ship` object in the store is
updated in place (a thrown `hit` leaves it unchanged). -/
def heapShipHit (h : GameHeap) (r : Nat) (c : CoordObj) : GameHeap :=
  match h.shipStore[r]? with
  | some sh =>
    match sh.hit c with
    | .ok sh1 => { shipStore := h.shipStore.set r sh1 }
    | .error _ => h
  | none => h

/-- The player fleet as the game itself observes it: each ship reference
dereferenced in the current store. -/
def observedPlayerFleet (g : GameStateRef) (h : GameHeap) : List (Option Ship) :=
  g.playerShipRefs.map (fun r => h.shipStore[r]?)

/-- The error component of a `processPlayerGuess` outcome. -/
def errOf (x : Except GameError GuessResult) : Option GameError :=
  match x with
  | .error e => some e
  | .ok _ => none

/-- The check order stated by the claim (spec §4.3): `NotInitialized`,
then `GameOver`, then `InvalidCoordinate` (null / out of bounds), then
`AlreadyGuessed` on the value `(row, col)`, and no error otherwise.  This
definition follows the claim's words and is compared against the code
model `GameState.processPlayerGuess`. -/
def playerGuessCheckSpec (gs : GameState) (g : Option CoordObj) : Option GameError :=
  if gs.inited = false then some .gameNotInit
  else if gs.isGameOver = true then some .gameOver
  else
    match g with
    | none => some .invalidCoordinates
    | some c =>
      if c.row < 0 ∨ BOARD_SIZE ≤ c.row ∨ c.col < 0 ∨ BOARD_SIZE ≤ c.col then
        some .invalidCoordinates
      else if (c.row, c.col) ∈ gs.playerGuesses then some .alreadyGuessed
      else none

/-!
Concrete states used to settle the claims.  `sampleGame` is produced by an
actual `initialize()` run (`initGame` with explicit random draws), so
every claim input built from it is a state the program reaches.
-/

/-- Placement draws of a player fleet: anchors (5,0), (6,0), (7,0), all
facing right — three non-overlapping horizontal ships. -/
def sampleDrawsP : List (List ((Int × Int) × Dir)) :=
  [[((5, 0), .right)], [((6, 0), .right)], [((7, 0), .right)]]

/-- Placement draws of a CPU fleet: anchors (2,2), (4,0), (6,4), all
facing right. -/
def sampleDrawsC : List (List ((Int × Int) × Dir)) :=
  [[((2, 2), .right)], [((4, 0), .right)], [((6, 4), .right)]]

/-- One full `initialize()` run from a fresh `GameState`. -/
def sampleInit : Except GameError (GameState × AIState) :=
  initGame GameState.new sampleDrawsP sampleDrawsC 0

/-- The game state the run `sampleInit` produces. -/
def sampleGame : GameState :=
  match sampleInit with
  | .ok p => p.1
  | .error _ => GameState.new

/-- A freshly parsed player guess `{row: 2, col: 2}`: its `row`/`col`
equal a cell of the first CPU ship of `sampleGame`, but being a new
allocation its `oid` (1000) differs from every stored location object. -/
def c1Guess : CoordObj := ⟨1000, 2, 2⟩

/-- `sampleGame` after one CPU turn in which the AI drew the cell (0,0):
the CPU guess-set holds (0,0), the player has not moved yet. -/
def c2Game : GameState :=
  { sampleGame with cpuGuesses := [((0 : Int), (0 : Int))] }

/-- Placement draws that anchor every ship at (0,0) facing right. -/
def c3Draws : List (List ((Int × Int) × Dir)) :=
  [[((0, 0), .right)], [((0, 0), .right)], [((0, 0), .right)]]

/-- An `initialize()` run in which the random draws repeat the same
anchor/direction for every ship. -/
def c3Init : Except GameError (GameState × AIState) :=
  initGame GameState.new c3Draws c3Draws 100

/-- The game state the run `c3Init` produces. -/
def c3Game : GameState :=
  match c3Init with
  | .ok p => p.1
  | .error _ => GameState.new

/-- `sampleGame` after the player guessed only (0,0) and the CPU side,
over many turns, guessed the other 99 cells (reachable because no guess
ever registers a hit — see claim C1 — so the game never ends and the AI
keeps drawing from the 99 cells outside the *player* guess-set). -/
def c4Game : GameState :=
  { sampleGame with
    playerGuesses := [((0 : Int), (0 : Int))],
    cpuGuesses := allBoardCells.filter (fun rc => !keySetHas [((0 : Int), (0 : Int))] rc) }

/-- An AI state in TARGET mode with an active direction `up`, as after a
hit at (4,4) followed by a directional probe. -/
def c5AI : AIState :=
  { lastHit := some ⟨300, 4, 4⟩, possibleDirections := allDirections,
    currentDirection := some .up, possibleShipSizes := [4, 3, 2, 1] }

/-- An AI state in TARGET mode with no active direction. -/
def c6AI : AIState :=
  { lastHit := some ⟨310, 2, 2⟩, possibleDirections := [.down, .left],
    currentDirection := none, possibleShipSizes := [4, 3, 2, 1] }

/-- An AI state in TARGET mode with an active direction. -/
def c6AIb : AIState :=
  { lastHit := some ⟨312, 2, 2⟩, possibleDirections := allDirections,
    currentDirection := some .right, possibleShipSizes := [4, 3, 2, 1] }

/-- A ship of size 3 with its three location objects (references 0-2). -/
def c8Ship : Ship :=
  { size := 3, locations := [⟨0, 2, 2⟩, ⟨1, 2, 3⟩, ⟨2, 2, 4⟩], hits := [] }

/-- A store holding the one ship, at reference 0. -/
def c8Heap : GameHeap := { shipStore := [c8Ship] }

/-- A game whose player fleet is that ship. -/
def c8Ref : GameStateRef := { playerShipRefs := [0], cpuShipRefs := [] }

/-- The ship's own first location object, as an external caller obtains it
from `getPlayerShips()[0].getLocations()` (the getter copies the `Set` but
keeps the same location objects). -/
def c8Loc : CoordObj := ⟨0, 2, 2⟩

/-- The ship after the external `hit` lands. -/
def c8ShipHit : Ship :=
  { size := 3, locations := [⟨0, 2, 2⟩, ⟨1, 2, 3⟩, ⟨2, 2, 4⟩], hits := [⟨0, 2, 2⟩] }

/-- Locations (0,0) … (0,k-1) on row 0, one fresh object each (`oid` =
column), as `k` successive `addLocation` calls build them. -/
def rowZeroLocs (k : Nat) : List CoordObj :=
  (List.range k).map (fun i => ⟨i, 0, (i : Int)⟩)

/-- `ls.forEach(loc => ship.hit(loc))`. -/
def hitMany (sh : Ship) (ls : List CoordObj) : Except GameError Ship :=
  ls.foldlM Ship.hit sh

/-- `new Ship(size)` followed by `size + 1` `addLocation` calls with
distinct in-bounds locations. -/
def c10Build (size : Int) : Except GameError Ship :=
  match Ship.make size with
  | .error e => .error e
  | .ok sh => addLocationsToShip sh (rowZeroLocs (size.toNat + 1))

/-- The over-filled ship after `size` of its `size + 1` locations are hit. -/
def c10Final (size : Int) : Except GameError Ship :=
  match c10Build size with
  | .error e => .error e
  | .ok sh => hitMany sh (rowZeroLocs size.toNat)

/-- `true` iff the `size + 1` `addLocation` calls all succeed and the ship
ends up holding `size + 1` locations. -/
def c10AddOk (size : Int) : Bool :=
  match c10Build size with
  | .ok sh => sh.locations.length == size.toNat + 1
  | .error _ => false

/-- `true` iff after `size` hits the over-filled ship reports `isSunk()`
while one of its locations is still unhit. -/
def c10SunkEarly (size : Int) : Bool :=
  match c10Final size with
  | .ok sh => sh.isSunk && sh.locations.any (fun l => !sh.isHitAt l)
  | .error _ => false

/-! Helper lemmas. -/

/-- A freshly allocated coordinate object (its `oid` differs from every
stored location object's) is found on no ship: `Set.has` compares
references. -/
theorem findShipIdxAux_eq_none (c : CoordObj) (ships : List Ship) (i : Nat)
    (h : ∀ sh ∈ ships, ∀ l ∈ sh.locations, l.oid ≠ c.oid) :
    findShipIdxAux c i ships = none := by
  induction ships generalizing i with
  | nil => rfl
  | cons sh rest ih =>
    have hsh : sh.isAtLocation c = false := by
      unfold Ship.isAtLocation objSetHas
      simp only [List.any_eq_false, beq_iff_eq]
      exact fun l hl => h sh (List.mem_cons_self _ _) l hl
    unfold findShipIdxAux
    rw [hsh]
    simp only [Bool.false_eq_true, if_false]
    exact ih (i + 1) (fun s hs => h s (List.mem_cons_of_mem _ hs))

/-- Specialisation to `findShipIdx`. -/
theorem findShipIdx_eq_none (c : CoordObj) (ships : List Ship)
    (h : ∀ sh ∈ ships, ∀ l ∈ sh.locations, l.oid ≠ c.oid) :
    findShipIdx ships c = none :=
  findShipIdxAux_eq_none c ships 0 h

/-- A guess that passes `validateGuess` passes `Ship##isValidLocation`:
the two bounds checks test the same inequalities. -/
theorem isValidLocation_of_validGuess (c : CoordObj)
    (h : validateGuess (some c) = none) : isValidLocation c = true := by
  have h2 : (if (decide (c.row < 0) || decide (c.row ≥ BOARD_SIZE) ||
      decide (c.col < 0) || decide (c.col ≥ BOARD_SIZE)) = true
      then some GameError.invalidCoordinates else none) = none := h
  unfold isValidLocation
  cases hb : (decide (c.row < 0) || decide (c.row ≥ BOARD_SIZE) ||
      decide (c.col < 0) || decide (c.col ≥ BOARD_SIZE)) with
  | true => rw [hb] at h2; simp at h2
  | false =>
    simp only [Bool.or_eq_false_iff, decide_eq_false_iff_not] at hb
    simp only [Bool.and_eq_true, decide_eq_true_eq]
    omega

/-- `Ship.hit` on an in-bounds coordinate throws only `NotPartOfShip` or
`AlreadySunk`. -/
theorem ship_hit_error_cases (sh : Ship) (c : CoordObj) (e : GameError)
    (hv : isValidLocation c = true) (h : sh.hit c = .error e) :
    e = .notPartOfShip ∨ e = .alreadySunk := by
  unfold Ship.hit at h
  rw [hv] at h
  simp only [Bool.not_true, Bool.false_eq_true, if_false] at h
  by_cases h2 : sh.isAtLocation c
  · rw [h2] at h
    simp only [Bool.not_true, Bool.false_eq_true, if_false] at h
    by_cases h3 : sh.isSunk
    · rw [if_pos h3] at h
      exact Or.inr (Except.error.inj h).symm
    · rw [if_neg h3] at h
      cases h
  · rw [Bool.not_eq_true] at h2
    rw [h2] at h
    simp only [Bool.not_false, if_true] at h
    exact Or.inl (Except.error.inj h).symm

/-- Updating a list cell behind a valid index is visible at that index. -/
theorem getElem?_set_of_some {α : Type} (l : List α) (i : Nat) (a b : α)
    (h : l[i]? = some a) : (l.set i b)[i]? = some b := by
  induction l generalizing i with
  | nil => simp at h
  | cons hd tl ih =>
    cases i with
    | zero => simp
    | succ n => simpa using ih n (by simpa using h)

/-- The cells `getAvailableCells` keeps are, as `(row, col)` values,
exactly the board cells outside the *player* guess-set, whatever `oid`
base the allocations use. -/
theorem getAvailableCells_map_key (gs : GameState) (oid0 : Nat) :
    (getAvailableCells gs oid0).map getGuessKey
      = allBoardCells.filter (fun rc => !keySetHas gs.playerGuesses rc) := by
  unfold getAvailableCells
  generalize allBoardCells = l
  induction l with
  | nil => rfl
  | cons hd tl ih =>
    have hcell : gs.isCellGuessed
        (CoordObj.mk (oid0 + (hd.1 * 10 + hd.2).toNat) hd.1 hd.2)
        = keySetHas gs.playerGuesses hd := rfl
    by_cases h : keySetHas gs.playerGuesses hd
    · simp [List.filter_cons, hcell, h, ih]
    · simp [List.filter_cons, hcell, h, ih, getGuessKey]

/-- `sampleInit` is a successful `initialize()` run ending in
`sampleGame`: the claim inputs built from `sampleGame` are reachable. -/
theorem sampleInit_ok : sampleInit = .ok (sampleGame, AIState.fresh) := rfl

/-- In `c4Game` the AI's candidate pool (the cells outside the *player*
guess-set) consists, by value, exactly of the 99 cells the CPU side has
already guessed. -/
theorem c4_avail_map (o : Nat) :
    (getAvailableCells c4Game o).map getGuessKey = c4Game.cpuGuesses :=
  getAvailableCells_map_key c4Game o

/-- The candidate pool of `c4Game` has 99 cells. -/
theorem c4_avail_len (o : Nat) : (getAvailableCells c4Game o).length = 99 := by
  have h := congrArg List.length (c4_avail_map o)
  rw [List.length_map] at h
  rw [h]
  decide

/-- Every random draw in `c4Game` yields a cell already in the CPU
guess-set. -/
theorem c4_random_guess (r o : Nat) :
    ∃ g, getRandomGuess c4Game r o = some g ∧
      keySetHas c4Game.cpuGuesses (getGuessKey g) = true := by
  have hlen := c4_avail_len o
  have hlt : r % (getAvailableCells c4Game o).length
      < (getAvailableCells c4Game o).length := by
    rw [hlen]; exact Nat.mod_lt _ (by decide)
  refine ⟨(getAvailableCells c4Game o)[r % (getAvailableCells c4Game o).length], ?_, ?_⟩
  · unfold getRandomGuess
    exact List.getElem?_eq_getElem hlt
  · have hmem : (getAvailableCells c4Game o)[r % (getAvailableCells c4Game o).length]
        ∈ getAvailableCells c4Game o := List.getElem_mem hlt
    have hkey := List.mem_map_of_mem getGuessKey hmem
    rw [c4_avail_map o] at hkey
    unfold keySetHas
    exact decide_eq_true hkey

/-! The claims. -/

/-- Claim C1.  The claim says `processPlayerGuess(c)` returns `hit` when a
CPU ship occupies a location value-equal to `c`.  It does not: in
`sampleGame` (a real `initialize()` output) the first CPU ship occupies
(2,2), yet guessing the freshly parsed coordinate object `{row:2, col:2}`
returns `miss`, because `Ship#locations.has` compares object references
and a caller-built guess is a new allocation.  The second conjunct
certifies that a CPU ship does occupy a cell value-equal to the guess. -/
theorem claimC1 :
    (sampleGame.processPlayerGuess (some c1Guess)).1
        = .ok { type := .miss, coordinates := c1Guess } ∧
    (sampleGame.getCPUShips).any
        (fun sh => sh.locations.any (fun l => sameCell l c1Guess)) = true :=
  ⟨rfl, rfl⟩

/-- Claim C2.  The claim says `makeGuess()` never returns a coordinate the
CPU side has already guessed.  In `c2Game` — `sampleGame` after one CPU
turn that guessed (0,0), a state reached after a single
`processCPUGuess()` call — the random draw with index 0 returns (0,0)
again: `GameAI##isValidGuess` and `##getAvailableCells` consult
`GameState.isCellGuessed`, which reads the *player* guess-set, so the CPU
guess-set never constrains the AI. -/
theorem claimC2 :
    ((makeGuess AIState.fresh c2Game 0 2000).1).map getGuessKey
        = some ((0 : Int), (0 : Int)) ∧
    keySetHas c2Game.cpuGuesses ((0 : Int), (0 : Int)) = true :=
  ⟨rfl, rfl⟩

/-- Claim C3.  The claim says a successful `initialize()` leaves no board
cell occupied by two distinct ships of one fleet.  The run `c3Init` —
whose random draws anchor every ship at (0,0) facing right — succeeds
(first conjunct) and produces the manifest's 3 player ships (second), but
ships 0 and 1 of the fleet share the cell (0,0) by value (third):
`##doLocationsOverlap` calls `isAtLocation`, whose `Set.has` compares
object references, and each placement allocates fresh location objects,
so the overlap check never fires. -/
theorem claimC3 :
    c3Init = .ok (c3Game, AIState.fresh) ∧
    c3Game.playerShips.length = 3 ∧
    (match c3Game.playerShips with
     | s0 :: s1 :: _ => s0.locations.any (fun a => s1.locations.any (fun b => sameCell a b))
     | _ => false) = true :=
  ⟨rfl, rfl, rfl⟩

/-- Claim C5.  The claim says a `miss` with an active direction removes
that direction from the remaining-directions set.  It does not: from
`c5AI` (active direction `up`), `updateState(_, 'miss')` clears
`currentDirection` (first conjunct) but leaves `possibleDirections` equal
to all four directions, `up` included (second conjunct):
`##switchDirection` nulls `#currentDirection` first and then filters by
`dir !== #currentDirection`, a comparison with `null` that keeps every
element. -/
theorem claimC5 :
    (c5AI.updateState sampleGame ⟨301, 3, 4⟩ .miss).currentDirection = none ∧
    (c5AI.updateState sampleGame ⟨301, 3, 4⟩ .miss).possibleDirections = allDirections :=
  ⟨rfl, rfl⟩

/-- Claim C6.  The claim says `updateState(_, 'sunk')` resets the AI fully
to HUNT (clear `lastHit`, reset directions, drop the sunk size).
`updateState` has no `'sunk'` branch at all: with no active direction
(`c6AI`) the call changes nothing — `lastHit` stays, the pruned direction
list stays, the size set stays (first conjunct); with an active direction
(`c6AIb`) it merely takes the `miss` path, leaving `lastHit` and
`possibleShipSizes` untouched (second and third conjuncts). -/
theorem claimC6 :
    c6AI.updateState sampleGame ⟨311, 2, 2⟩ .sunk = c6AI ∧
    (c6AIb.updateState sampleGame ⟨313, 2, 3⟩ .sunk).lastHit = some ⟨312, 2, 2⟩ ∧
    (c6AIb.updateState sampleGame ⟨313, 2, 3⟩ .sunk).possibleShipSizes = [4, 3, 2, 1] :=
  ⟨rfl, rfl, rfl⟩

/-- Claim C8, counterexample.  The claim says mutating a ship contained in
the value `getPlayerShips()` returns leaves the game's internal fleet
state unchanged.  It does not: hitting the ship behind reference 0 of the
returned array (with a location object obtained from its
`getLocations()`) changes the fleet the game itself observes. -/
theorem claimC8_cex :
    ¬ observedPlayerFleet c8Ref (heapShipHit c8Heap 0 c8Loc)
        = observedPlayerFleet c8Ref c8Heap := by
  decide

/-- Claim C8, amended: the getters return *shallow* copies — a fresh array
holding the very ship references of the internal fleet (first conjunct),
so element mutation is shared: an external `hit` through a returned
reference is visible in the fleet the game observes (second conjunct).
Only array-level mutation of the returned copy leaves the game
unchanged. -/
theorem claimC8 (g : GameStateRef) (h : GameHeap) (i r : Nat) (sh sh1 : Ship)
    (c : CoordObj) (h1 : (getPlayerShipsRef g)[i]? = some r)
    (h2 : h.shipStore[r]? = some sh) (h3 : sh.hit c = .ok sh1) :
    getPlayerShipsRef g = g.playerShipRefs ∧
    (observedPlayerFleet g (heapShipHit h r c))[i]? = some (some sh1) := by
  refine ⟨rfl, ?_⟩
  have h4 : g.playerShipRefs[i]? = some r := h1
  unfold observedPlayerFleet heapShipHit
  simp only [h2, h3]
  rw [List.getElem?_map, h4]
  exact congrArg some (getElem?_set_of_some h.shipStore r sh sh1 h2)

/-- Claim C8, witness for the amended theorem at the concrete store. -/
theorem claimC8_witness :
    getPlayerShipsRef c8Ref = c8Ref.playerShipRefs ∧
    (observedPlayerFleet c8Ref (heapShipHit c8Heap 0 c8Loc))[0]? = some (some c8ShipHit) :=
  claimC8 c8Ref c8Heap 0 0 c8Ship c8ShipHit c8Loc rfl rfl rfl

/-- Claim C10.  `Ship.addLocation` never compares the location count with
the ship's size: for every valid size, `size + 1` distinct in-bounds
locations can be added without error (`c10AddOk`), and after `size` hits
such a ship reports `isSunk()` while a location is still unhit
(`c10SunkEarly`) — `isSunk` compares `|hits|` with `size`, not with
`|locations|`. -/
theorem claimC10 (size : Int) (h1 : 1 ≤ size) (h2 : size ≤ 4) :
    c10AddOk size = true ∧ c10SunkEarly size = true := by
  have h : size = 1 ∨ size = 2 ∨ size = 3 ∨ size = 4 := by omega
  rcases h with h | h | h | h <;> subst h <;> exact ⟨by decide, by decide⟩

/-- Claim C10, witness at size 3. -/
theorem claimC10_witness :
    (1 : Int) ≤ 3 ∧ (3 : Int) ≤ 4 ∧ c10AddOk 3 = true ∧ c10SunkEarly 3 = true :=
  ⟨by decide, by decide, (claimC10 3 (by decide) (by decide)).1,
    (claimC10 3 (by decide) (by decide)).2⟩

/-- Claim C4.  The claim says `processCPUGuess()` terminates whenever some
cell is outside the CPU guess-set.  In `c4Game` — player guessed only
(0,0), CPU guessed the other 99 cells — the cell (0,0) is outside the CPU
guess-set and the game is initialized and not over, yet the defensive
retry recurses forever: every AI draw comes from the pool of cells outside
the *player* guess-set, all 99 of which are already CPU-guessed.  Whatever
random stream and fuel are supplied, the call only ever runs out of
fuel. -/
theorem claimC4 (fuel : Nat) : ∀ (step : Nat) (rnd oids : Nat → Nat),
    processCPUGuess c4Game AIState.fresh rnd oids step fuel = .fuelOut := by
  induction fuel with
  | zero => intro step rnd oids; rfl
  | succ n ih =>
    intro step rnd oids
    obtain ⟨g, hg, hmem⟩ := c4_random_guess (rnd step) (oids step + 10)
    have hval : validateGameState c4Game = none := by decide
    have hmk : makeGuess AIState.fresh c4Game (rnd step) (oids step)
        = (some g, AIState.fresh) := by
      unfold makeGuess AIState.fresh
      rw [hg]
    simp only [processCPUGuess, hval, hmk, hmem, if_true]
    exact ih (step + 1) rnd oids

/-- Claim C7.  `processPlayerGuess` raises an error exactly when one of
the claimed conditions holds, and with the claimed priority order —
`NotInitialized`, then `GameOver`, then `InvalidCoordinate` (null / out of
bounds), then `AlreadyGuessed` on the `(row, col)` value
(`playerGuessCheckSpec` transcribes the claim).  In particular a first
guess at an in-bounds not-yet-guessed coordinate raises nothing, and it
records the `(row, col)` key (second conjunct), so any later guess
value-equal to it raises `AlreadyGuessed`.  The freshness hypothesis says
the guess is a new allocation (as every parsed player guess is), so the
reference-identity `find` cannot reach `Ship.hit`'s own errors. -/
theorem claimC7 (gs : GameState) (g : Option CoordObj)
    (hfresh : ∀ c, g = some c → ∀ sh ∈ gs.cpuShips, ∀ l ∈ sh.locations, l.oid ≠ c.oid) :
    errOf (gs.processPlayerGuess g).1 = playerGuessCheckSpec gs g ∧
    (playerGuessCheckSpec gs g = none →
      ∀ c, g = some c → getGuessKey c ∈ ((gs.processPlayerGuess g).2).playerGuesses) := by
  cases hinit : gs.inited with
  | false =>
    have hval : validateGameState gs = some .gameNotInit := by
      unfold validateGameState
      rw [hinit]
      rfl
    have hcode : gs.processPlayerGuess g = (.error .gameNotInit, gs) := by
      unfold GameState.processPlayerGuess
      rw [hval]
    have hspec : playerGuessCheckSpec gs g = some .gameNotInit := by
      unfold playerGuessCheckSpec
      rw [hinit]
      rfl
    rw [hcode, hspec]
    exact ⟨rfl, by intro h; cases h⟩
  | true =>
    cases hover : gs.isGameOver with
    | true =>
      have hval : validateGameState gs = some .gameOver := by
        unfold validateGameState
        rw [hinit, hover]
        rfl
      have hcode : gs.processPlayerGuess g = (.error .gameOver, gs) := by
        unfold GameState.processPlayerGuess
        rw [hval]
      have hspec : playerGuessCheckSpec gs g = some .gameOver := by
        unfold playerGuessCheckSpec
        rw [hinit, hover]
        rfl
      rw [hcode, hspec]
      exact ⟨rfl, by intro h; cases h⟩
    | false =>
      have hval : validateGameState gs = none := by
        unfold validateGameState
        rw [hinit, hover]
        rfl
      cases g with
      | none =>
        have hcode : gs.processPlayerGuess none = (.error .invalidCoordinates, gs) := by
          unfold GameState.processPlayerGuess
          rw [hval]
          rfl
        have hspec : playerGuessCheckSpec gs none = some .invalidCoordinates := by
          unfold playerGuessCheckSpec
          rw [hinit, hover]
          rfl
        rw [hcode, hspec]
        exact ⟨rfl, by intro h; cases h⟩
      | some c =>
        cases hb : (decide (c.row < 0) || decide (c.row ≥ BOARD_SIZE) ||
            decide (c.col < 0) || decide (c.col ≥ BOARD_SIZE)) with
        | true =>
          have hvg : validateGuess (some c) = some .invalidCoordinates := by
            show (if (decide (c.row < 0) || decide (c.row ≥ BOARD_SIZE) ||
                decide (c.col < 0) || decide (c.col ≥ BOARD_SIZE)) = true
                then some GameError.invalidCoordinates else none)
              = some GameError.invalidCoordinates
            rw [hb]
            rfl
          have hcode : gs.processPlayerGuess (some c) = (.error .invalidCoordinates, gs) := by
            unfold GameState.processPlayerGuess
            rw [hval, hvg]
          have hbp : c.row < 0 ∨ BOARD_SIZE ≤ c.row ∨ c.col < 0 ∨ BOARD_SIZE ≤ c.col := by
            simp only [Bool.or_eq_true, decide_eq_true_eq] at hb
            tauto
          have hspec : playerGuessCheckSpec gs (some c) = some .invalidCoordinates := by
            unfold playerGuessCheckSpec
            rw [hinit, hover]
            simp [hbp]
          rw [hcode, hspec]
          exact ⟨rfl, by intro h; cases h⟩
        | false =>
          have hvg : validateGuess (some c) = none := by
            show (if (decide (c.row < 0) || decide (c.row ≥ BOARD_SIZE) ||
                decide (c.col < 0) || decide (c.col ≥ BOARD_SIZE)) = true
                then some GameError.invalidCoordinates else none)
              = none
            rw [hb]
            rfl
          have hbp : ¬(c.row < 0 ∨ BOARD_SIZE ≤ c.row ∨ c.col < 0 ∨ BOARD_SIZE ≤ c.col) := by
            simp only [Bool.or_eq_false_iff, decide_eq_false_iff_not] at hb
            push_neg
            omega
          by_cases hk : (c.row, c.col) ∈ gs.playerGuesses
          · have hks : keySetHas gs.playerGuesses (getGuessKey c) = true :=
              decide_eq_true hk
            have hcode : gs.processPlayerGuess (some c) = (.error .alreadyGuessed, gs) := by
              unfold GameState.processPlayerGuess
              rw [hval, hvg]
              simp only [hks, if_true]
            have hspec : playerGuessCheckSpec gs (some c) = some .alreadyGuessed := by
              unfold playerGuessCheckSpec
              rw [hinit, hover]
              simp [hbp, hk]
            rw [hcode, hspec]
            exact ⟨rfl, by intro h; cases h⟩
          · have hks : keySetHas gs.playerGuesses (getGuessKey c) = false :=
              decide_eq_false hk
            have hfind : findShipIdx gs.cpuShips c = none :=
              findShipIdx_eq_none c gs.cpuShips (hfresh c rfl)
            have hcode : gs.processPlayerGuess (some c)
                = (.ok { type := .miss, coordinates := c },
                   { gs with playerGuesses := keySetAdd gs.playerGuesses (getGuessKey c) }) := by
              unfold GameState.processPlayerGuess
              rw [hval, hvg]
              simp only [hks, Bool.false_eq_true, if_false]
              have hfind2 : findShipIdx
                  ({ gs with playerGuesses := keySetAdd gs.playerGuesses (getGuessKey c) }).cpuShips c
                  = none := hfind
              rw [hfind2]
            have hspec : playerGuessCheckSpec gs (some c) = none := by
              unfold playerGuessCheckSpec
              rw [hinit, hover]
              simp [hbp, hk]
            rw [hcode, hspec]
            refine ⟨rfl, ?_⟩
            intro _ c2 hc2
            cases hc2
            show getGuessKey c ∈ keySetAdd gs.playerGuesses (getGuessKey c)
            unfold keySetAdd
            rw [hks]
            simp

/-- Claim C7, witness: in the freshly initialized `sampleGame`, the error
behaviour of a guess at the in-bounds, not-yet-guessed (2,2) matches the
claimed check order (no error is raised, and the key is recorded). -/
theorem claimC7_witness :
    errOf (sampleGame.processPlayerGuess (some c1Guess)).1
        = playerGuessCheckSpec sampleGame (some c1Guess) ∧
    (playerGuessCheckSpec sampleGame (some c1Guess) = none →
      ∀ c, some c1Guess = some c →
        getGuessKey c ∈ ((sampleGame.processPlayerGuess (some c1Guess)).2).playerGuesses) :=
  claimC7 sampleGame (some c1Guess) (by decide)

/-- Claim C9.  Whenever `processPlayerGuess` raises one of the four
validation errors (`NotInitialized`, `GameOver`, `InvalidCoordinate`,
`AlreadyGuessed`), the game state at exit equals the state at entry: all
four checks precede the guess-set insertion and the ship `hit`. -/
theorem claimC9 (gs : GameState) (g : Option CoordObj) (e : GameError)
    (herr : (gs.processPlayerGuess g).1 = .error e)
    (hfour : e = .gameNotInit ∨ e = .gameOver ∨ e = .invalidCoordinates ∨
      e = .alreadyGuessed) :
    (gs.processPlayerGuess g).2 = gs := by
  unfold GameState.processPlayerGuess at herr ⊢
  cases hval : validateGameState gs with
  | some e1 => rfl
  | none =>
    simp only [hval] at herr
    cases hvg : validateGuess g with
    | some e1 => rfl
    | none =>
      simp only [hvg] at herr
      cases g with
      | none => simp [validateGuess] at hvg
      | some c =>
        cases hk : keySetHas gs.playerGuesses (getGuessKey c) with
        | true =>
          simp only [hk, if_true]
        | false =>
          simp only [hk, Bool.false_eq_true, if_false] at herr ⊢
          cases hf : findShipIdx gs.cpuShips c with
          | none =>
            simp only [hf] at herr
            cases herr
          | some i =>
            simp only [hf] at herr ⊢
            cases hgi : gs.cpuShips[i]? with
            | none =>
              simp only [hgi] at herr
              cases herr
            | some sh =>
              simp only [hgi] at herr ⊢
              cases hh : sh.hit c with
              | ok sh1 =>
                simp only [hh] at herr
                cases herr
              | error e2 =>
                simp only [hh] at herr
                have he : e2 = e := Except.error.inj herr
                have hv := isValidLocation_of_validGuess c hvg
                have hcases := ship_hit_error_cases sh c e2 hv hh
                subst he
                rcases hcases with h | h <;> subst h <;>
                  rcases hfour with h | h | h | h <;> cases h

/-- Claim C9, witness: a guess processed before initialization raises
`NotInitialized` and leaves the fresh game state untouched. -/
theorem claimC9_witness :
    (GameState.new.processPlayerGuess (some ⟨0, 0, 0⟩)).2 = GameState.new :=
  claimC9 GameState.new (some ⟨0, 0, 0⟩) .gameNotInit rfl (Or.inl rfl)

end SeaBattle


